import Mathlib

/-!
Shallow embedding of the document-translation orchestrator in `src/app.py`
(repository `translator_azur`).  Pure data is modelled directly; the external
collaborators (PyMuPDF, `zipfile`, the Azure blob store and the translation
service) are modelled as oracle data supplied to the embedded functions:
each oracle field records the outcome the collaborator produces for the
concrete input at hand.  Machine-level byte strings are lists of naturals.
-/

/-- Raw bytes of a document or blob. -/
abbrev Bytes := List Nat

/-- An uploaded document: original filename plus its raw bytes
(`uploaded_file.name`, `uploaded_file.getvalue()`). -/
structure UploadedFile where
  name : String
  content : Bytes
deriving DecidableEq

/-- Python `str.lower()` (character-wise, as a structural map). -/
def strLower (s : String) : String := String.mk (s.data.map Char.toLower)

/-- Python `str.upper()` (character-wise, as a structural map). -/
def strUpper (s : String) : String := String.mk (s.data.map Char.toUpper)

/-- Python `str.startswith(pfx)`. -/
def strStartsWith (s pfx : String) : Bool := pfx.data.isPrefixOf s.data

/-- Python `str.endswith(sfx)`. -/
def strEndsWith (s sfx : String) : Bool := sfx.data.isSuffixOf s.data

/-- Index of the last '.' in a character list, if any. -/
def lastDotIdx (cs : List Char) : Option Nat :=
  ((cs.enum.filter (fun p => p.2 == '.')).map (fun p => p.1)).getLast?

/-- Python `name.split('.')[-1].lower()` from `is_drm_protected`
(app.py:214): everything after the last dot (the whole name when there is
no dot), lower-cased. -/
def fileExt (name : String) : String :=
  match lastDotIdx name.data with
  | none => strLower name
  | some d => strLower (String.mk (name.data.drop (d + 1)))

/-- Python `os.path.splitext` restricted to plain filenames (no path
separator): split at the last dot unless every character before it is a
dot (app.py:429). -/
def splitext (p : String) : String × String :=
  match lastDotIdx p.data with
  | none => (p, "")
  | some d =>
    if (p.data.take d).any (fun c => c != '.') then
      (String.mk (p.data.take d), String.mk (p.data.drop d))
    else
      (p, "")

/-- The per-language suffix override table (app.py:310-313). -/
def LANG_SUFFIX_OVERRIDE : List (String × String) :=
  [("zh-Hans", "CN"), ("zh-Hant", "TW")]

/-- Finalized filename of a succeeded task (app.py:493-494):
`{name_part}_{suffix}{ext_part}` with the suffix looked up in
`LANG_SUFFIX_OVERRIDE`, defaulting to the upper-cased language code. -/
def final_filename (name lang : String) : String :=
  (splitext name).1 ++ "_" ++ ((LANG_SUFFIX_OVERRIDE.lookup lang).getD (strUpper lang))
    ++ (splitext name).2

/-- The suffix rule as the specification words it: `CN` for `zh-Hans`,
`TW` for `zh-Hant`, otherwise the upper-cased language code. -/
def specSuffix (lang : String) : String :=
  if lang = "zh-Hans" then "CN"
  else if lang = "zh-Hant" then "TW"
  else strUpper lang

/-- Outcome of `fitz.open(...)` on a PDF: the parsed document exposes only
the `is_encrypted` flag the guard reads (app.py:221-223). -/
structure PdfDoc where
  is_encrypted : Bool
deriving DecidableEq

/-- Outcome of `zipfile.ZipFile(...)`: the archive exposes its member name
list (app.py:239-241). -/
structure ZipArchive where
  namelist : List String
deriving DecidableEq

/-- Oracle for the parsing collaborators used by `is_drm_protected` on one
concrete document: the result of `fitz.open`, of `zipfile.is_zipfile`, and
of `zipfile.ZipFile`.  `Except.error` models the call raising. -/
structure ParseEnv where
  fitzOpen : Except String PdfDoc
  is_zipfile : Bool
  zipOpen : Except String ZipArchive

/-- Body of `is_drm_protected` (app.py:213-247): the outer `try` block, with
the two inner `try/except` handlers translated to matches on the parse
oracles.  An `Except.error` result would model the body itself raising out
to the outer handler; every branch in fact returns `Except.ok`. -/
def is_drm_protectedBody (f : UploadedFile) (env : ParseEnv) : Except String Bool :=
  let ft := fileExt f.name
  if ft = "pdf" then
    match env.fitzOpen with
    | Except.ok doc => if doc.is_encrypted then Except.ok true else Except.ok false
    | Except.error _ => Except.ok true
  else if ft = "docx" ∨ ft = "pptx" ∨ ft = "xlsx" then
    if ¬ env.is_zipfile then Except.ok true
    else
      match env.zipOpen with
      | Except.ok zf =>
        if "[Content_Types].xml" ∈ zf.namelist then Except.ok false else Except.ok true
      | Except.error _ => Except.ok true
  else
    Except.ok false

/-- `is_drm_protected` (app.py:208-250): the body wrapped in the outer
`except` handler, which returns `False` (app.py:248-250). -/
def is_drm_protected (f : UploadedFile) (env : ParseEnv) : Bool :=
  match is_drm_protectedBody f env with
  | Except.ok b => b
  | Except.error _ => false

theorem is_drm_protectedBody_ok (f : UploadedFile) (env : ParseEnv) :
    is_drm_protectedBody f env = Except.ok (is_drm_protected f env) := by
  unfold is_drm_protected is_drm_protectedBody
  rcases env.fitzOpen with e | d <;> rcases env.zipOpen with e2 | zf <;>
    by_cases h1 : fileExt f.name = "pdf" <;>
    by_cases h2 : fileExt f.name = "docx" ∨ fileExt f.name = "pptx" ∨ fileExt f.name = "xlsx" <;>
    simp [h1, h2] <;> split <;> first | rfl | (split <;> rfl)

/-- Oracle for the collaborators used by `generate_sas_url` on one call:
account name, the credential's account-key access (app.py:137-140), the two
token generators (app.py:164-174 and app.py:194-201), the page-suffix
cleaner `re.sub(...).strip()` (app.py:148), the mime-type guess
(app.py:152) and `urllib.parse.quote` (app.py:175,182).  `Except.error`
models the call raising. -/
structure SasEnv where
  account_name : String
  account_key : Except String String
  blobSas : String → String → Except String String
  containerSas : Except String String
  cleanOf : String → String
  mimeOf : String → Option String
  quoteOf : String → String

/-- The warning surfaced by the `except` handler of `generate_sas_url`
(app.py:205). -/
def sasErrMsg (blobName : Option String) (e : String) : String :=
  "SAS URL 생성 중 오류 발생 (" ++ (match blobName with | some b => b | none => "None") ++ "): " ++ e

/-- `generate_sas_url` (app.py:128-206).  Returns the produced URL together
with the list of surfaced error messages; a signing failure yields the
sentinel URL `"#"` and one warning.  The `permission` and `expiry_hours`
parameters only feed the token oracles and are not modelled separately. -/
def generate_sas_url (env : SasEnv) (container : String) (blobName : Option String)
    (page : Option Nat) (content_disposition : Option String) (no_viewer : Bool) :
    String × List String :=
  match env.account_key with
  | Except.error e => ("#", [sasErrMsg blobName e])
  | Except.ok _ =>
    match blobName with
    | some bn =>
      let clean := env.cleanOf bn
      let ctcd :=
        if strEndsWith (strLower clean) ".pdf" then ("application/pdf", some "inline")
        else ((env.mimeOf clean).getD "application/octet-stream", content_disposition)
      let cd := ctcd.2.getD "inline"
      match env.blobSas ctcd.1 cd with
      | Except.error e => ("#", [sasErrMsg blobName e])
      | Except.ok tok =>
        let sas_url := "https://" ++ (env.account_name ++ ".blob.core.windows.net/"
          ++ container ++ "/" ++ env.quoteOf clean ++ "?" ++ tok)
        if no_viewer then (sas_url, [])
        else
          let ln := strLower clean
          if strEndsWith ln ".pptx" ∨ strEndsWith ln ".ppt" ∨ strEndsWith ln ".docx"
              ∨ strEndsWith ln ".doc" ∨ strEndsWith ln ".xlsx" ∨ strEndsWith ln ".xls" then
            ("https://" ++ ("view.officeapps.live.com/op/view.aspx?src=" ++ env.quoteOf sas_url), [])
          else if strEndsWith ln ".pdf" then
            match page with
            | some p => (sas_url ++ ("#page=" ++ toString p), [])
            | none => (sas_url, [])
          else (sas_url, [])
    | none =>
      match env.containerSas with
      | Except.error e => ("#", [sasErrMsg none e])
      | Except.ok tok =>
        ("https://" ++ (env.account_name ++ ".blob.core.windows.net/" ++ container ++ "?" ++ tok), [])

/-- The blob container: a finite map from blob name to bytes, kept as an
association list in upload order (the listing order of the model). -/
abbrev BlobStore := List (String × Bytes)

/-- `upload_blob(..., overwrite=True)` (app.py:439): replace any existing
blob of that name, the fresh blob going to the end of the listing. -/
def uploadBlob (store : BlobStore) (name : String) (data : Bytes) : BlobStore :=
  store.filter (fun b => b.1 != name) ++ [(name, data)]

/-- `list_blobs(name_starts_with=pfx)` (app.py:484). -/
def listBlobs (store : BlobStore) (pfx : String) : List (String × Bytes) :=
  store.filter (fun b => strStartsWith b.1 pfx)

/-- `delete_blob(name)` (app.py:490, app.py:507). -/
def deleteBlob (store : BlobStore) (name : String) : BlobStore :=
  store.filter (fun b => b.1 != name)

/-- Per-document status returned by the translation poller (app.py:469-472):
status string plus the error's code and message. -/
structure DocResult where
  status : String
  errorCode : String
  errorMessage : String
deriving DecidableEq

/-- What the external world does during one task (app.py:432-511): either
some step of the task body raises (`raiseErr`, with a flag telling whether
the source upload had already happened), or the translation call completes,
returning the per-document statuses and writing `outputs` (name suffix,
bytes) under the task's output prefix. -/
inductive TaskBehavior where
  | raiseErr (afterUpload : Bool) (msg : String)
  | complete (docs : List DocResult) (outputs : List (String × Bytes))

/-- One recorded success: finalized filename plus result bytes
(app.py:496-499). -/
structure TaskResult where
  filename : String
  data : Bytes
deriving DecidableEq

/-- Orchestrator state threaded through the batch loops: the blob
container, the `results` and `errors` lists (app.py:412-413), the
`st.error` displays, the progress counter (app.py:417) and the number of
File Guard invocations. -/
structure OrchState where
  store : BlobStore
  results : List TaskResult
  errors : List String
  uiMessages : List String
  completedTasks : Nat
  guardCalls : Nat
deriving DecidableEq

/-- Fresh orchestrator state over an initial container (app.py:412-417). -/
def initState (store : BlobStore) : OrchState :=
  { store := store, results := [], errors := [], uiMessages := [],
    completedTasks := 0, guardCalls := 0 }

/-- Source blob name `{batch_id}_{target_lang}_{original_filename}`
(app.py:435). -/
def inputBlobName (batchId lang filename : String) : String :=
  batchId ++ "_" ++ lang ++ "_" ++ filename

/-- Output prefix `translated_{batch_id}_{target_lang}_{name_part}`
(app.py:444). -/
def outPfx (batchId lang namePart : String) : String :=
  "translated_" ++ batchId ++ "_" ++ lang ++ "_" ++ namePart

/-- The fixed DRM error display (app.py:421). -/
def drmMsg (name : String) : String :=
  "⛔ " ++ name ++ ": DRM으로 보호된 파일은 번역할 수 없습니다."

/-- The per-task exception display (app.py:510). -/
def taskErrMsg (name lang msg : String) : String :=
  "처리 중 오류 (" ++ name ++ " - " ++ lang ++ "): " ++ msg

/-- The documents of one completed translation whose status is not
`Succeeded` (the ones that flip the `success` flag, app.py:469-471). -/
def docFailures (docs : List DocResult) : List DocResult :=
  docs.filter (fun d => d.status != "Succeeded")

/-- The error message recorded for each failed document (app.py:472). -/
def docErrMsgs (name lang : String) (docs : List DocResult) : List String :=
  (docFailures docs).map
    (fun d => name ++ " (" ++ lang ++ ") 실패: " ++ d.errorCode ++ " - " ++ d.errorMessage)

/-- Container contents after the source upload (app.py:439) and the
service's writes under the output prefix of the task. -/
def taskStore2 (st : OrchState) (batchId lang : String) (f : UploadedFile)
    (outputs : List (String × Bytes)) : BlobStore :=
  outputs.foldl
    (fun s o => uploadBlob s (outPfx batchId lang (splitext f.name).1 ++ o.1) o.2)
    (uploadBlob st.store (inputBlobName batchId lang f.name) f.content)

/-- One iteration of the per-(document, language) loop (app.py:431-515).
On `raiseErr` the `except` handler records the message and the loop goes
on.  On completion: failed documents append their error; if all succeeded,
the blobs under the output prefix are listed — when none are found nothing
is recorded and only the source blob is deleted; when some are found the
first is downloaded and deleted, the result is recorded under the
finalized filename, and the source blob is deleted. -/
def runTask (st : OrchState) (batchId : String) (f : UploadedFile) (lang : String)
    (b : TaskBehavior) : OrchState :=
  match b with
  | TaskBehavior.raiseErr afterUpload msg =>
    { st with
        store := if afterUpload
          then uploadBlob st.store (inputBlobName batchId lang f.name) f.content
          else st.store,
        errors := st.errors ++ [msg],
        uiMessages := st.uiMessages ++ [taskErrMsg f.name lang msg],
        completedTasks := st.completedTasks + 1 }
  | TaskBehavior.complete docs outputs =>
    let store2 := taskStore2 st batchId lang f outputs
    let srcName := inputBlobName batchId lang f.name
    let pfx := outPfx batchId lang (splitext f.name).1
    let st1 := { st with
        errors := st.errors ++ docErrMsgs f.name lang docs,
        uiMessages := st.uiMessages ++ docErrMsgs f.name lang docs }
    if (docFailures docs).isEmpty then
      match listBlobs store2 pfx with
      | [] =>
        { st1 with store := deleteBlob store2 srcName,
                   completedTasks := st1.completedTasks + 1 }
      | blob :: _ =>
        { st1 with
            store := deleteBlob (deleteBlob store2 blob.1) srcName,
            results := st1.results ++ [⟨final_filename f.name lang, blob.2⟩],
            completedTasks := st1.completedTasks + 1 }
    else
      { st1 with store := store2, completedTasks := st1.completedTasks + 1 }

/-- The inner loop over the selected target languages (app.py:431). -/
def runLangs (st : OrchState) (batchId : String) (f : UploadedFile)
    (langs : List String) (behav : String → TaskBehavior) : OrchState :=
  langs.foldl (fun s l => runTask s batchId f l (behav l)) st

/-- One iteration of the per-document loop (app.py:419-427): the File
Guard runs once for the document; a protected document gets the fixed DRM
display, its tasks are counted as completed failures and no upload
happens; otherwise every language task runs. -/
def runDocument (st : OrchState) (batchId : String) (langs : List String)
    (f : UploadedFile) (env : ParseEnv) (behav : String → TaskBehavior) : OrchState :=
  let st0 := { st with guardCalls := st.guardCalls + 1 }
  if is_drm_protected f env then
    { st0 with
        uiMessages := st0.uiMessages ++ [drmMsg f.name],
        completedTasks := st0.completedTasks + langs.length }
  else
    runLangs st0 batchId f langs behav

/-- One uploaded document together with its parse-oracle outcomes and the
external behavior of each of its language tasks. -/
structure DocumentRun where
  file : UploadedFile
  env : ParseEnv
  behav : String → TaskBehavior

/-- The whole batch loop (app.py:419-515). -/
def runBatch (st : OrchState) (batchId : String) (langs : List String)
    (docs : List DocumentRun) : OrchState :=
  docs.foldl (fun s d => runDocument s batchId langs d.file d.env d.behav) st

/-- The batch artifact: an in-memory zip archive is its entry list. -/
inductive ArtifactData where
  | raw (bytes : Bytes)
  | zip (entries : List (String × Bytes))
deriving DecidableEq

/-- The persisted download artifact (app.py:539-544). -/
structure Artifact where
  filename : String
  data : ArtifactData
  is_zip : Bool
deriving DecidableEq

/-- Artifact preparation (app.py:518-536): one result is delivered raw
under its finalized filename; otherwise a zip archive named
`translated_files_{timestamp}.zip` is built whose entries are the
results' finalized filenames and bytes, in order. -/
def packageResults (results : List TaskResult) (timestamp : String) : Artifact :=
  if results.length = 1 then
    { filename := (results.headD ⟨"", []⟩).filename,
      data := ArtifactData.raw (results.headD ⟨"", []⟩).data,
      is_zip := false }
  else
    { filename := "translated_files_" ++ timestamp ++ ".zip",
      data := ArtifactData.zip (results.map (fun r => (r.filename, r.data))),
      is_zip := true }

/-- The batch's terminal report (app.py:517-553): with no recorded result
the batch reports failure and stores no artifact; otherwise the artifact
is stored and the recorded errors are surfaced as warnings. -/
inductive BatchReport where
  | success (artifact : Artifact) (warnings : List String)
  | failure (msg : String)
deriving DecidableEq

/-- Finalization of a batch (app.py:517-553). -/
def finalizeBatch (results : List TaskResult) (errors : List String)
    (timestamp : String) : BatchReport :=
  if results.isEmpty then BatchReport.failure "번역된 결과물이 없습니다."
  else BatchReport.success (packageResults results timestamp) errors

/-- Reading one member of the in-memory zip archive back by name. -/
def zipExtract (entries : List (String × Bytes)) (name : String) : Option Bytes :=
  entries.lookup name

theorem runTask_success_no_output (st : OrchState) (batchId : String) (f : UploadedFile)
    (lang : String) (docs : List DocResult) (outputs : List (String × Bytes))
    (hall : docFailures docs = [])
    (hno : listBlobs (taskStore2 st batchId lang f outputs)
      (outPfx batchId lang (splitext f.name).1) = []) :
    runTask st batchId f lang (TaskBehavior.complete docs outputs) =
      { st with
          store := deleteBlob (taskStore2 st batchId lang f outputs)
            (inputBlobName batchId lang f.name),
          completedTasks := st.completedTasks + 1 } := by
  unfold runTask
  simp [hall, hno, docErrMsgs]

theorem runTask_success_output (st : OrchState) (batchId : String) (f : UploadedFile)
    (lang : String) (docs : List DocResult) (outputs : List (String × Bytes))
    (blob : String × Bytes) (rest : List (String × Bytes))
    (hall : docFailures docs = [])
    (hlist : listBlobs (taskStore2 st batchId lang f outputs)
      (outPfx batchId lang (splitext f.name).1) = blob :: rest) :
    runTask st batchId f lang (TaskBehavior.complete docs outputs) =
      { st with
          store := deleteBlob (deleteBlob (taskStore2 st batchId lang f outputs) blob.1)
            (inputBlobName batchId lang f.name),
          results := st.results ++ [⟨final_filename f.name lang, blob.2⟩],
          completedTasks := st.completedTasks + 1 } := by
  unfold runTask
  simp [hall, hlist, docErrMsgs]

theorem runDocument_protected (st : OrchState) (batchId : String) (langs : List String)
    (f : UploadedFile) (env : ParseEnv) (behav : String → TaskBehavior)
    (h : is_drm_protected f env = true) :
    runDocument st batchId langs f env behav =
      { st with
          uiMessages := st.uiMessages ++ [drmMsg f.name],
          completedTasks := st.completedTasks + langs.length,
          guardCalls := st.guardCalls + 1 } := by
  unfold runDocument
  simp [h]

theorem runBatch_all_protected (batchId : String) (langs : List String) :
    ∀ (docs : List DocumentRun) (st : OrchState),
      (∀ d ∈ docs, is_drm_protected d.file d.env = true) →
      (runBatch st batchId langs docs).store = st.store ∧
      (runBatch st batchId langs docs).results = st.results ∧
      (runBatch st batchId langs docs).errors = st.errors ∧
      (runBatch st batchId langs docs).guardCalls = st.guardCalls + docs.length := by
  intro docs
  induction docs with
  | nil => intro st h; simp [runBatch]
  | cons d tl ih =>
    intro st h
    have hd := h d (List.mem_cons_self d tl)
    have htl : ∀ x ∈ tl, is_drm_protected x.file x.env = true :=
      fun x hx => h x (List.mem_cons_of_mem d hx)
    have step : runBatch st batchId langs (d :: tl) =
        runBatch (runDocument st batchId langs d.file d.env d.behav) batchId langs tl := rfl
    rw [step, runDocument_protected st batchId langs d.file d.env d.behav hd]
    obtain ⟨h1, h2, h3, h4⟩ := ih _ htl
    refine ⟨h1, h2, h3, ?_⟩
    rw [h4]
    simp [List.length_cons]
    omega

theorem lookup_map_data :
    ∀ (results : List TaskResult), (results.map (fun r => r.filename)).Nodup →
      ∀ r ∈ results,
        (results.map (fun r => (r.filename, r.data))).lookup r.filename = some r.data := by
  intro results
  induction results with
  | nil => simp
  | cons a tl ih =>
    intro hnd r hr
    rw [List.map_cons, List.nodup_cons] at hnd
    rcases List.mem_cons.mp hr with h | h
    · subst h
      simp [List.lookup]
    · have hne : r.filename ≠ a.filename := by
        intro he
        exact hnd.1 (he ▸ List.mem_map_of_mem (fun r => r.filename) h)
      have hb : (r.filename == a.filename) = false := beq_eq_false_iff_ne.mpr hne
      simp [List.lookup, hb]
      exact ih hnd.2 r h

theorem https_prefix_ne_sentinel (t : String) : "https://" ++ t ≠ "#" := by
  intro h
  have hlen := congrArg String.length h
  rw [String.length_append] at hlen
  have h8 : ("https://" : String).length = 8 := rfl
  have h1 : ("#" : String).length = 1 := rfl
  omega

theorem https_pair_ok (t : String) :
    ((("https://" ++ t : String), ([] : List String)).2 = [] ∧
      (∃ rest, (("https://" ++ t : String), ([] : List String)).1 = "https://" ++ rest) ∧
      (("https://" ++ t : String), ([] : List String)).1 ≠ "#") :=
  ⟨rfl, ⟨t, rfl⟩, https_prefix_ne_sentinel t⟩

/-- C1: after a completed batch, zero recorded successes give an overall
failure with no artifact; exactly one gives that task's raw bytes under its
finalized filename with the archive flag false; two or more give an
in-memory zip archive named `translated_files_{timestamp}.zip` whose
entries are exactly the succeeded tasks' finalized filenames with their
recorded bytes, and reading any entry back returns those bytes. -/
theorem batch_packaging_rule (results : List TaskResult) (errors : List String) (ts : String) :
    (results = [] → finalizeBatch results errors ts =
      BatchReport.failure "번역된 결과물이 없습니다.") ∧
    (∀ r, results = [r] → finalizeBatch results errors ts =
      BatchReport.success ⟨r.filename, ArtifactData.raw r.data, false⟩ errors) ∧
    (2 ≤ results.length →
      finalizeBatch results errors ts =
        BatchReport.success
          ⟨"translated_files_" ++ ts ++ ".zip",
           ArtifactData.zip (results.map (fun r => (r.filename, r.data))), true⟩ errors ∧
      ((results.map (fun r => r.filename)).Nodup →
        ∀ r ∈ results,
          zipExtract (results.map (fun r => (r.filename, r.data))) r.filename = some r.data)) := by
  refine ⟨?_, ?_, ?_⟩
  · intro h; subst h; rfl
  · intro r h; subst h; rfl
  · intro h
    constructor
    · rcases results with _ | ⟨a, _ | ⟨b, tl⟩⟩
      · simp at h
      · simp at h
      · simp [finalizeBatch, packageResults]
    · intro hnd r hr
      exact lookup_map_data results hnd r hr

theorem batch_packaging_rule_check :
    finalizeBatch [⟨"a.txt", [1]⟩, ⟨"b.txt", [2]⟩] [] "20240101" =
      BatchReport.success
        ⟨"translated_files_20240101.zip",
         ArtifactData.zip [("a.txt", [1]), ("b.txt", [2])], true⟩ [] ∧
    zipExtract [("a.txt", [1]), ("b.txt", [2])] "a.txt" = some [1] := by
  have h := (batch_packaging_rule [⟨"a.txt", [1]⟩, ⟨"b.txt", [2]⟩] [] "20240101").2.2
    (by decide)
  constructor
  · have h1 := h.1
    simpa using h1
  · have h2 := h.2 (by decide) ⟨"a.txt", [1]⟩ (by decide)
    simpa using h2

/-- C2: the File Guard never raises — its body (with the inner fail-closed
handlers) always returns a value, so the wrapper returns a boolean on every
input — and whenever the internal parse of a supported format fails (the
PDF parse raises, or the Office archive open raises), it reports the
document as protected. -/
theorem file_guard_fail_closed (f : UploadedFile) (env : ParseEnv) :
    is_drm_protectedBody f env = Except.ok (is_drm_protected f env) ∧
    (fileExt f.name = "pdf" →
      ∀ e, env.fitzOpen = Except.error e → is_drm_protected f env = true) ∧
    ((fileExt f.name = "docx" ∨ fileExt f.name = "pptx" ∨ fileExt f.name = "xlsx") →
      ∀ e, env.zipOpen = Except.error e → is_drm_protected f env = true) := by
  refine ⟨is_drm_protectedBody_ok f env, ?_, ?_⟩
  · intro hft e he
    unfold is_drm_protected is_drm_protectedBody
    simp [hft, he]
  · intro hft e he
    have hpdf : ¬ fileExt f.name = "pdf" := by
      rcases hft with h | h | h <;> rw [h] <;> decide
    unfold is_drm_protected is_drm_protectedBody
    rcases hz : env.is_zipfile with _ | _ <;> simp [hpdf, hft, he, hz]

theorem file_guard_fail_closed_check :
    is_drm_protected ⟨"broken.pdf", [0]⟩ ⟨Except.error "parse", true, Except.ok ⟨[]⟩⟩ = true ∧
    is_drm_protected ⟨"bad.docx", [0]⟩ ⟨Except.ok ⟨false⟩, true, Except.error "zip"⟩ = true := by
  constructor
  · exact (file_guard_fail_closed ⟨"broken.pdf", [0]⟩
      ⟨Except.error "parse", true, Except.ok ⟨[]⟩⟩).2.1 (by decide) "parse" rfl
  · exact (file_guard_fail_closed ⟨"bad.docx", [0]⟩
      ⟨Except.ok ⟨false⟩, true, Except.error "zip"⟩).2.2 (Or.inl (by decide)) "zip" rfl

/-- C6: the File Guard classifies a supported Office document as protected
when its bytes are not a valid zip archive or when the archive lacks the
`[Content_Types].xml` manifest entry; for a PDF that parses, it reports
exactly the parser's encryption flag (true for encrypted, false for valid
non-encrypted); any other extension is never checked and reported
unprotected. -/
theorem file_guard_classification (f : UploadedFile) (env : ParseEnv) :
    ((fileExt f.name = "docx" ∨ fileExt f.name = "pptx" ∨ fileExt f.name = "xlsx") →
      (env.is_zipfile = false → is_drm_protected f env = true) ∧
      (∀ zf, env.zipOpen = Except.ok zf → "[Content_Types].xml" ∉ zf.namelist →
        is_drm_protected f env = true)) ∧
    (fileExt f.name = "pdf" →
      ∀ d, env.fitzOpen = Except.ok d → is_drm_protected f env = d.is_encrypted) ∧
    (fileExt f.name ≠ "pdf" → fileExt f.name ≠ "docx" → fileExt f.name ≠ "pptx" →
      fileExt f.name ≠ "xlsx" → is_drm_protected f env = false) := by
  refine ⟨?_, ?_, ?_⟩
  · intro hft
    have hpdf : ¬ fileExt f.name = "pdf" := by
      rcases hft with h | h | h <;> rw [h] <;> decide
    constructor
    · intro hz
      unfold is_drm_protected is_drm_protectedBody
      simp [hpdf, hft, hz]
    · intro zf hzf hmem
      unfold is_drm_protected is_drm_protectedBody
      rcases hz : env.is_zipfile with _ | _ <;> simp [hpdf, hft, hzf, hmem, hz]
  · intro hft d hd
    unfold is_drm_protected is_drm_protectedBody
    rcases he : d.is_encrypted with _ | _ <;> simp [hft, hd, he]
  · intro h1 h2 h3 h4
    unfold is_drm_protected is_drm_protectedBody
    simp [h1, h2, h3, h4]

theorem file_guard_classification_check :
    is_drm_protected ⟨"a.docx", [0]⟩ ⟨Except.ok ⟨false⟩, false, Except.error "x"⟩ = true ∧
    is_drm_protected ⟨"m.pptx", [0]⟩ ⟨Except.ok ⟨false⟩, true, Except.ok ⟨["other"]⟩⟩ = true ∧
    is_drm_protected ⟨"b.pdf", [0]⟩ ⟨Except.ok ⟨false⟩, true, Except.ok ⟨[]⟩⟩ = false ∧
    is_drm_protected ⟨"e.pdf", [0]⟩ ⟨Except.ok ⟨true⟩, true, Except.ok ⟨[]⟩⟩ = true ∧
    is_drm_protected ⟨"c.txt", [0]⟩ ⟨Except.error "x", false, Except.error "y"⟩ = false := by
  refine ⟨?_, ?_, ?_, ?_, ?_⟩
  · exact ((file_guard_classification ⟨"a.docx", [0]⟩
      ⟨Except.ok ⟨false⟩, false, Except.error "x"⟩).1 (Or.inl (by decide))).1 rfl
  · exact ((file_guard_classification ⟨"m.pptx", [0]⟩
      ⟨Except.ok ⟨false⟩, true, Except.ok ⟨["other"]⟩⟩).1 (Or.inr (Or.inl (by decide)))).2
      ⟨["other"]⟩ rfl (by decide)
  · exact (file_guard_classification ⟨"b.pdf", [0]⟩
      ⟨Except.ok ⟨false⟩, true, Except.ok ⟨[]⟩⟩).2.1 (by decide) ⟨false⟩ rfl
  · exact (file_guard_classification ⟨"e.pdf", [0]⟩
      ⟨Except.ok ⟨true⟩, true, Except.ok ⟨[]⟩⟩).2.1 (by decide) ⟨true⟩ rfl
  · exact (file_guard_classification ⟨"c.txt", [0]⟩
      ⟨Except.error "x", false, Except.error "y"⟩).2.2
      (by decide) (by decide) (by decide) (by decide)

/-- C7: the finalized filename of a succeeded task is
`{basename}_{SUFFIX}{ext}` where SUFFIX is `CN` for `zh-Hans`, `TW` for
`zh-Hant`, and the upper-cased language code otherwise; in particular
`report.pdf` becomes `report_CN.pdf` for `zh-Hans` and `report_FR.pdf`
for `fr`. -/
theorem finalized_filename_rule :
    (∀ name lang, final_filename name lang =
      (splitext name).1 ++ "_" ++ specSuffix lang ++ (splitext name).2) ∧
    final_filename "report.pdf" "zh-Hans" = "report_CN.pdf" ∧
    final_filename "report.pdf" "fr" = "report_FR.pdf" := by
  refine ⟨?_, by decide, by decide⟩
  intro name lang
  by_cases h1 : lang = "zh-Hans"
  · subst h1; rfl
  · by_cases h2 : lang = "zh-Hant"
    · subst h2; rfl
    · have e1 : (lang == "zh-Hans") = false := beq_eq_false_iff_ne.mpr h1
      have e2 : (lang == "zh-Hant") = false := beq_eq_false_iff_ne.mpr h2
      simp [final_filename, specSuffix, LANG_SUFFIX_OVERRIDE, List.lookup, e1, e2, h1, h2]



/-- C3 counterexample: a concrete task the service reports `Succeeded` with
no blob under its output prefix — the claim says it is recorded as failed
with a "result missing" error, but after the task the `errors` list is
still empty and no result was recorded: nothing records the loss. -/
theorem result_missing_never_recorded :
    (runTask (initState []) "b" ⟨"doc1.docx", [1]⟩ "fr"
      (TaskBehavior.complete [⟨"Succeeded", "", ""⟩] [])).errors = [] ∧
    (runTask (initState []) "b" ⟨"doc1.docx", [1]⟩ "fr"
      (TaskBehavior.complete [⟨"Succeeded", "", ""⟩] [])).results = [] ∧
    (runTask (initState []) "b" ⟨"doc1.docx", [1]⟩ "fr"
      (TaskBehavior.complete [⟨"Succeeded", "", ""⟩] [])).uiMessages = [] := by
  refine ⟨by decide, by decide, by decide⟩

/-- C3 (amended): when the service reports succeeded but listing the output
prefix finds no blob, the task is recorded neither as failed nor as
succeeded — the `errors` and `results` lists are unchanged (no "result
missing" entry exists in the code), the source blob is deleted, and the
task is merely counted as completed. -/
theorem result_missing_silent_drop (st : OrchState) (batchId : String) (f : UploadedFile)
    (lang : String) (docs : List DocResult) (outputs : List (String × Bytes))
    (hall : docFailures docs = [])
    (hno : listBlobs (taskStore2 st batchId lang f outputs)
      (outPfx batchId lang (splitext f.name).1) = []) :
    runTask st batchId f lang (TaskBehavior.complete docs outputs) =
      { st with
          store := deleteBlob (taskStore2 st batchId lang f outputs)
            (inputBlobName batchId lang f.name),
          completedTasks := st.completedTasks + 1 } :=
  runTask_success_no_output st batchId f lang docs outputs hall hno

theorem result_missing_silent_drop_check :
    runTask (initState []) "b" ⟨"doc1.docx", [1]⟩ "fr"
      (TaskBehavior.complete [⟨"Succeeded", "", ""⟩] []) =
      { store := [], results := [], errors := [], uiMessages := [],
        completedTasks := 1, guardCalls := 0 } := by
  have h := result_missing_silent_drop (initState []) "b" ⟨"doc1.docx", [1]⟩ "fr"
    [⟨"Succeeded", "", ""⟩] [] (by decide) (by decide)
  exact h.trans (by decide)

/-- C4 counterexample: a concrete successfully-completed task with two
blobs under its output prefix — the claim says every blob under the output
prefix is deleted, but the code deletes only the first listed one: the
second blob, whose name starts with the output prefix, survives the
task. -/
theorem cleanup_leaves_other_outputs :
    (runTask (initState []) "b" ⟨"doc.docx", [1]⟩ "fr"
      (TaskBehavior.complete [⟨"Succeeded", "", ""⟩] [("1", [1]), ("2", [2])])).store =
      [("translated_b_fr_doc2", [2])] ∧
    strStartsWith "translated_b_fr_doc2" (outPfx "b" "fr" "doc") = true := by
  refine ⟨by decide, by decide⟩

/-- C4 (amended): for a task that completes successfully (all documents
`Succeeded` and at least one blob listed under the output prefix), the
orchestrator records the first listed blob's bytes under the finalized
filename and deletes exactly that blob and the task's source blob; any
other blob under the output prefix is left in the container. -/
theorem successful_task_cleanup (st : OrchState) (batchId : String) (f : UploadedFile)
    (lang : String) (docs : List DocResult) (outputs : List (String × Bytes))
    (blob : String × Bytes) (rest : List (String × Bytes))
    (hall : docFailures docs = [])
    (hlist : listBlobs (taskStore2 st batchId lang f outputs)
      (outPfx batchId lang (splitext f.name).1) = blob :: rest) :
    runTask st batchId f lang (TaskBehavior.complete docs outputs) =
      { st with
          store := deleteBlob (deleteBlob (taskStore2 st batchId lang f outputs) blob.1)
            (inputBlobName batchId lang f.name),
          results := st.results ++ [⟨final_filename f.name lang, blob.2⟩],
          completedTasks := st.completedTasks + 1 } ∧
    (∀ x ∈ rest, x.1 ≠ blob.1 → x.1 ≠ inputBlobName batchId lang f.name →
      x ∈ (runTask st batchId f lang (TaskBehavior.complete docs outputs)).store) := by
  have heq := runTask_success_output st batchId f lang docs outputs blob rest hall hlist
  refine ⟨heq, ?_⟩
  intro x hx hxb hxs
  rw [heq]
  have hxl : x ∈ listBlobs (taskStore2 st batchId lang f outputs)
      (outPfx batchId lang (splitext f.name).1) := by
    rw [hlist]; exact List.mem_cons_of_mem blob hx
  have hxst : x ∈ taskStore2 st batchId lang f outputs :=
    (List.mem_filter.mp hxl).1
  show x ∈ deleteBlob (deleteBlob (taskStore2 st batchId lang f outputs) blob.1)
    (inputBlobName batchId lang f.name)
  unfold deleteBlob
  refine List.mem_filter.mpr ⟨List.mem_filter.mpr ⟨hxst, ?_⟩, ?_⟩
  · simpa using hxb
  · simpa using hxs

theorem successful_task_cleanup_check :
    (runTask (initState []) "b" ⟨"doc.docx", [1]⟩ "fr"
      (TaskBehavior.complete [⟨"Succeeded", "", ""⟩] [("1", [1]), ("2", [2])])).results =
      [⟨"doc_FR.docx", [1]⟩] ∧
    ("translated_b_fr_doc2", [2]) ∈
      (runTask (initState []) "b" ⟨"doc.docx", [1]⟩ "fr"
        (TaskBehavior.complete [⟨"Succeeded", "", ""⟩] [("1", [1]), ("2", [2])])).store := by
  have h := successful_task_cleanup (initState []) "b" ⟨"doc.docx", [1]⟩ "fr"
    [⟨"Succeeded", "", ""⟩] [("1", [1]), ("2", [2])]
    ("translated_b_fr_doc1", [1]) [("translated_b_fr_doc2", [2])] (by decide) (by decide)
  constructor
  · rw [h.1]; decide
  · exact h.2 ("translated_b_fr_doc2", [2]) (by decide) (by decide) (by decide)

/-- C5: a document classified as protected gets the fixed DRM/encrypted
error display, all its per-language tasks are terminally failed (counted
as completed, contributing no upload, no result and no further guard
call — the guard runs exactly once per document), and its upload is
skipped; consequently a batch in which every document is protected leaves
the container untouched (zero blobs uploaded) and reports overall
failure. -/
theorem protected_document_policy :
    (∀ (st : OrchState) (batchId : String) (langs : List String) (f : UploadedFile)
        (env : ParseEnv) (behav : String → TaskBehavior),
      is_drm_protected f env = true →
      runDocument st batchId langs f env behav =
        { st with
            uiMessages := st.uiMessages ++ [drmMsg f.name],
            completedTasks := st.completedTasks + langs.length,
            guardCalls := st.guardCalls + 1 }) ∧
    (∀ (batchId : String) (langs : List String) (store0 : BlobStore)
        (docs : List DocumentRun) (ts : String),
      (∀ d ∈ docs, is_drm_protected d.file d.env = true) →
      (runBatch (initState store0) batchId langs docs).store = store0 ∧
      (runBatch (initState store0) batchId langs docs).guardCalls = docs.length ∧
      finalizeBatch (runBatch (initState store0) batchId langs docs).results
        (runBatch (initState store0) batchId langs docs).errors ts =
        BatchReport.failure "번역된 결과물이 없습니다.") := by
  constructor
  · exact runDocument_protected
  · intro batchId langs store0 docs ts hprot
    obtain ⟨h1, h2, h3, h4⟩ := runBatch_all_protected batchId langs docs (initState store0) hprot
    refine ⟨h1, by simpa [initState] using h4, ?_⟩
    rw [h2]
    rfl

theorem protected_document_policy_check :
    (runBatch (initState []) "b" ["fr", "de"]
      [⟨⟨"s.pdf", [1]⟩, ⟨Except.error "x", false, Except.error "y"⟩,
        fun _ => TaskBehavior.raiseErr false "unused"⟩]).store = [] ∧
    finalizeBatch
      (runBatch (initState []) "b" ["fr", "de"]
        [⟨⟨"s.pdf", [1]⟩, ⟨Except.error "x", false, Except.error "y"⟩,
          fun _ => TaskBehavior.raiseErr false "unused"⟩]).results
      (runBatch (initState []) "b" ["fr", "de"]
        [⟨⟨"s.pdf", [1]⟩, ⟨Except.error "x", false, Except.error "y"⟩,
          fun _ => TaskBehavior.raiseErr false "unused"⟩]).errors "T" =
      BatchReport.failure "번역된 결과물이 없습니다." := by
  have h := protected_document_policy.2 "b" ["fr", "de"] []
    [⟨⟨"s.pdf", [1]⟩, ⟨Except.error "x", false, Except.error "y"⟩,
      fun _ => TaskBehavior.raiseErr false "unused"⟩] "T"
    (by
      intro d hd
      rw [List.mem_singleton] at hd
      subst hd
      decide)
  exact ⟨h.1, h.2.2⟩

/-- C8: an exception raised while processing one task is caught by the
per-task handler, which records exactly that task's failure (one error
entry, no result) and leaves everything else to the loop, which always
continues with the remaining language tasks; concretely, a document whose
first language task raises still gets its second language task processed
to success. -/
theorem task_failure_isolation :
    (∀ (st : OrchState) (batchId : String) (f : UploadedFile) (lang : String)
        (langs : List String) (behav : String → TaskBehavior),
      runLangs st batchId f (lang :: langs) behav =
        runLangs (runTask st batchId f lang (behav lang)) batchId f langs behav) ∧
    (∀ (st : OrchState) (batchId : String) (f : UploadedFile) (lang : String)
        (afterUpload : Bool) (msg : String),
      runTask st batchId f lang (TaskBehavior.raiseErr afterUpload msg) =
        { st with
            store := if afterUpload
              then uploadBlob st.store (inputBlobName batchId lang f.name) f.content
              else st.store,
            errors := st.errors ++ [msg],
            uiMessages := st.uiMessages ++ [taskErrMsg f.name lang msg],
            completedTasks := st.completedTasks + 1 }) ∧
    ((runDocument (initState []) "b" ["fr", "de"] ⟨"a.txt", [1]⟩
        ⟨Except.ok ⟨false⟩, true, Except.ok ⟨["[Content_Types].xml"]⟩⟩
        (fun l => if l = "fr" then TaskBehavior.raiseErr true "boom"
                  else TaskBehavior.complete [⟨"Succeeded", "", ""⟩] [("out", [7])])).results =
      [⟨"a_DE.txt", [7]⟩] ∧
     (runDocument (initState []) "b" ["fr", "de"] ⟨"a.txt", [1]⟩
        ⟨Except.ok ⟨false⟩, true, Except.ok ⟨["[Content_Types].xml"]⟩⟩
        (fun l => if l = "fr" then TaskBehavior.raiseErr true "boom"
                  else TaskBehavior.complete [⟨"Succeeded", "", ""⟩] [("out", [7])])).errors =
      ["boom"]) :=
  ⟨fun _ _ _ _ _ _ => rfl, fun _ _ _ _ _ _ => rfl, by decide, by decide⟩

/-- C10: when the service reports succeeded but no blob is listed under
the output prefix, the source blob is deleted anyway while `results` and
`errors` stay unchanged — and a concrete batch with such a task next to a
normal one ends as a complete success (no errors, artifact from the other
task) with the lost task's source unrecoverably gone (empty container). -/
theorem silent_output_loss (st : OrchState) (batchId : String) (f : UploadedFile)
    (lang : String) (docs : List DocResult) (outputs : List (String × Bytes))
    (hall : docFailures docs = [])
    (hno : listBlobs (taskStore2 st batchId lang f outputs)
      (outPfx batchId lang (splitext f.name).1) = []) :
    ((runTask st batchId f lang (TaskBehavior.complete docs outputs)).errors = st.errors ∧
     (runTask st batchId f lang (TaskBehavior.complete docs outputs)).results = st.results ∧
     (runTask st batchId f lang (TaskBehavior.complete docs outputs)).store =
       deleteBlob (taskStore2 st batchId lang f outputs) (inputBlobName batchId lang f.name)) ∧
    ((runBatch (initState []) "b" ["fr"]
        [⟨⟨"doc1.docx", [1]⟩, ⟨Except.ok ⟨false⟩, true, Except.ok ⟨["[Content_Types].xml"]⟩⟩,
           fun _ => TaskBehavior.complete [⟨"Succeeded", "", ""⟩] []⟩,
         ⟨⟨"doc2.docx", [2]⟩, ⟨Except.ok ⟨false⟩, true, Except.ok ⟨["[Content_Types].xml"]⟩⟩,
           fun _ => TaskBehavior.complete [⟨"Succeeded", "", ""⟩] [("X", [9])]⟩]).errors = [] ∧
     (runBatch (initState []) "b" ["fr"]
        [⟨⟨"doc1.docx", [1]⟩, ⟨Except.ok ⟨false⟩, true, Except.ok ⟨["[Content_Types].xml"]⟩⟩,
           fun _ => TaskBehavior.complete [⟨"Succeeded", "", ""⟩] []⟩,
         ⟨⟨"doc2.docx", [2]⟩, ⟨Except.ok ⟨false⟩, true, Except.ok ⟨["[Content_Types].xml"]⟩⟩,
           fun _ => TaskBehavior.complete [⟨"Succeeded", "", ""⟩] [("X", [9])]⟩]).store = [] ∧
     finalizeBatch
       (runBatch (initState []) "b" ["fr"]
         [⟨⟨"doc1.docx", [1]⟩, ⟨Except.ok ⟨false⟩, true, Except.ok ⟨["[Content_Types].xml"]⟩⟩,
            fun _ => TaskBehavior.complete [⟨"Succeeded", "", ""⟩] []⟩,
          ⟨⟨"doc2.docx", [2]⟩, ⟨Except.ok ⟨false⟩, true, Except.ok ⟨["[Content_Types].xml"]⟩⟩,
            fun _ => TaskBehavior.complete [⟨"Succeeded", "", ""⟩] [("X", [9])]⟩]).results
       (runBatch (initState []) "b" ["fr"]
         [⟨⟨"doc1.docx", [1]⟩, ⟨Except.ok ⟨false⟩, true, Except.ok ⟨["[Content_Types].xml"]⟩⟩,
            fun _ => TaskBehavior.complete [⟨"Succeeded", "", ""⟩] []⟩,
          ⟨⟨"doc2.docx", [2]⟩, ⟨Except.ok ⟨false⟩, true, Except.ok ⟨["[Content_Types].xml"]⟩⟩,
            fun _ => TaskBehavior.complete [⟨"Succeeded", "", ""⟩] [("X", [9])]⟩]).errors "T" =
       BatchReport.success ⟨"doc2_FR.docx", ArtifactData.raw [9], false⟩ []) := by
  constructor
  · have h := runTask_success_no_output st batchId f lang docs outputs hall hno
    rw [h]
    exact ⟨rfl, rfl, rfl⟩
  · exact ⟨by decide, by decide, by decide⟩

theorem silent_output_loss_check :
    (runTask (initState []) "b2" ⟨"doc1.docx", [1]⟩ "fr"
      (TaskBehavior.complete [⟨"Succeeded", "", ""⟩] [])).errors = [] ∧
    (runTask (initState []) "b2" ⟨"doc1.docx", [1]⟩ "fr"
      (TaskBehavior.complete [⟨"Succeeded", "", ""⟩] [])).results = [] := by
  have h := silent_output_loss (initState []) "b2" ⟨"doc1.docx", [1]⟩ "fr"
    [⟨"Succeeded", "", ""⟩] [] (by decide) (by decide)
  exact ⟨h.1.1, h.1.2.1⟩

theorem https_pair_ok2 (t u : String) :
    ((("https://" ++ t ++ u : String), ([] : List String)).2 = [] ∧
      (∃ rest, (("https://" ++ t ++ u : String), ([] : List String)).1 = "https://" ++ rest) ∧
      (("https://" ++ t ++ u : String), ([] : List String)).1 ≠ "#") := by
  rw [String.append_assoc]
  exact https_pair_ok (t ++ u)

/-- C9: when any signing step of the signed-URL constructor raises, the
exception is not propagated — the function returns the sentinel URL `"#"`
and surfaces exactly one warning; when signing succeeds it surfaces no
warning and returns a real signed URL (an `https://...` address, never the
sentinel). -/
theorem sas_url_sentinel_policy (env : SasEnv) (container : String) (blobName : Option String)
    (page : Option Nat) (cdisp : Option String) (noViewer : Bool) :
    (∀ e, env.account_key = Except.error e →
      generate_sas_url env container blobName page cdisp noViewer =
        ("#", [sasErrMsg blobName e])) ∧
    (∀ k e bn, env.account_key = Except.ok k → blobName = some bn →
      (∀ ct cd, env.blobSas ct cd = Except.error e) →
      generate_sas_url env container blobName page cdisp noViewer =
        ("#", [sasErrMsg blobName e])) ∧
    (∀ k e, env.account_key = Except.ok k → blobName = none →
      env.containerSas = Except.error e →
      generate_sas_url env container blobName page cdisp noViewer =
        ("#", [sasErrMsg blobName e])) ∧
    (∀ k tok bn, env.account_key = Except.ok k → blobName = some bn →
      (∀ ct cd, env.blobSas ct cd = Except.ok tok) →
      (generate_sas_url env container blobName page cdisp noViewer).2 = [] ∧
      (∃ rest, (generate_sas_url env container blobName page cdisp noViewer).1 =
        "https://" ++ rest) ∧
      (generate_sas_url env container blobName page cdisp noViewer).1 ≠ "#") ∧
    (∀ k tok, env.account_key = Except.ok k → blobName = none →
      env.containerSas = Except.ok tok →
      (generate_sas_url env container blobName page cdisp noViewer).2 = [] ∧
      (∃ rest, (generate_sas_url env container blobName page cdisp noViewer).1 =
        "https://" ++ rest) ∧
      (generate_sas_url env container blobName page cdisp noViewer).1 ≠ "#") := by
  refine ⟨?_, ?_, ?_, ?_, ?_⟩
  · intro e he
    simp only [generate_sas_url, he]
  · intro k e bn hk hbn hb
    subst hbn
    simp only [generate_sas_url, hk, hb]
  · intro k e hk hbn hc
    subst hbn
    simp only [generate_sas_url, hk, hc]
  · intro k tok bn hk hbn hb
    subst hbn
    simp only [generate_sas_url, hk, hb]
    repeat
      first
      | exact https_pair_ok _
      | exact https_pair_ok2 _ _
      | exact ⟨trivial, ⟨_, rfl⟩, https_prefix_ne_sentinel _⟩
      | (rw [String.append_assoc]; exact ⟨trivial, ⟨_, rfl⟩, https_prefix_ne_sentinel _⟩)
      | split
  · intro k tok hk hbn hc
    subst hbn
    simp only [generate_sas_url, hk, hc]
    exact ⟨trivial, ⟨_, rfl⟩, https_prefix_ne_sentinel _⟩

theorem sas_url_sentinel_policy_check :
    generate_sas_url
      ⟨"acct", Except.error "denied", fun _ _ => Except.ok "t", Except.ok "t",
        id, fun _ => none, id⟩ "cont" (some "a.pdf") none none true =
      ("#", [sasErrMsg (some "a.pdf") "denied"]) ∧
    (generate_sas_url
      ⟨"acct", Except.ok "key", fun _ _ => Except.ok "tok", Except.ok "tok",
        id, fun _ => none, id⟩ "cont" (some "a.pdf") none none true).1 ≠ "#" := by
  constructor
  · exact (sas_url_sentinel_policy
      ⟨"acct", Except.error "denied", fun _ _ => Except.ok "t", Except.ok "t",
        id, fun _ => none, id⟩ "cont" (some "a.pdf") none none true).1 "denied" rfl
  · exact ((sas_url_sentinel_policy
      ⟨"acct", Except.ok "key", fun _ _ => Except.ok "tok", Except.ok "tok",
        id, fun _ => none, id⟩ "cont" (some "a.pdf") none none true).2.2.2.1
      "key" "tok" "a.pdf" rfl rfl (fun _ _ => rfl)).2.2
